import Mathlib

/-!
Verification of the markdown-to-PDF renderer in src/pdf_utils.py.

Strings are modelled as List Char.  Python string primitives used by the
source (str.strip, str.rstrip, str.strip("|"), str.splitlines,
str.split("|"), str.split("\n\n"), str.startswith, str.lower) are embedded
below; the renderer functions (_clean_text, _convert_markdown_bold_to_html,
_is_markdown_table, _parse_markdown_table, build_pdf_bytes) are translated
from the source line by line.  Floating point spacing parameters are
modelled as rationals; the arithmetic the source performs on them
(addition and multiplication by small constants) is exact.
-/

/-- Python whitespace characters stripped by str.strip / str.rstrip
(ASCII subset; the source text never relies on exotic unicode spaces). -/
def isPyWs (c : Char) : Bool :=
  c == ' ' || c == '\t' || c == '\n' || c == '\r' || c == '\x0b' || c == '\x0c'

/-- Remove trailing characters satisfying p (Python str.rstrip core). -/
def dropEndWhile (p : Char → Bool) (s : List Char) : List Char :=
  (s.reverse.dropWhile p).reverse

/-- Remove leading and trailing characters satisfying p (Python str.strip(chars)). -/
def pyStripWith (p : Char → Bool) (s : List Char) : List Char :=
  dropEndWhile p (s.dropWhile p)

/-- Python str.strip() — strip whitespace at both ends. -/
def stripWs (s : List Char) : List Char := pyStripWith isPyWs s

/-- Python str.rstrip() — strip trailing whitespace. -/
def rstripWs (s : List Char) : List Char := dropEndWhile isPyWs s

/-- Python str.strip("|") — strip pipe characters at both ends. -/
def stripPipes (s : List Char) : List Char := pyStripWith (fun c => c == '|') s

/-- Helper for pySplitlines, carrying the current line in reverse. -/
def splitlinesAux : List Char → List Char → List (List Char)
  | [], acc => if acc = [] then [] else [acc.reverse]
  | '\r' :: '\n' :: rest, acc => acc.reverse :: splitlinesAux rest []
  | '\n' :: rest, acc => acc.reverse :: splitlinesAux rest []
  | '\r' :: rest, acc => acc.reverse :: splitlinesAux rest []
  | c :: rest, acc => splitlinesAux rest (c :: acc)

/-- Python str.splitlines(): split on line boundaries (newline, carriage
return, CRLF); a trailing terminator produces no trailing empty line. -/
def pySplitlines (s : List Char) : List (List Char) := splitlinesAux s []

/-- Helper for splitOnPipe, carrying the current piece in reverse. -/
def splitOnPipeAux : List Char → List Char → List (List Char)
  | [], acc => [acc.reverse]
  | '|' :: rest, acc => acc.reverse :: splitOnPipeAux rest []
  | c :: rest, acc => splitOnPipeAux rest (c :: acc)

/-- Python str.split("|"): every pipe is a cut point, empty pieces kept. -/
def splitOnPipe (s : List Char) : List (List Char) := splitOnPipeAux s []

/-- Helper for splitBlank, carrying the current piece in reverse. -/
def splitBlankAux : List Char → List Char → List (List Char)
  | [], acc => [acc.reverse]
  | '\n' :: '\n' :: rest, acc => acc.reverse :: splitBlankAux rest []
  | c :: rest, acc => splitBlankAux rest (c :: acc)

/-- Python text.split("\n\n") — the Block Segmenter boundary used at
pdf_utils.py line 208. -/
def splitBlank (s : List Char) : List (List Char) := splitBlankAux s []

/-- Python str.lower() restricted to ASCII letters; the callout keywords
checked by the source are pure ASCII. -/
def asciiLower (c : Char) : Char :=
  if 65 ≤ c.toNat ∧ c.toNat ≤ 90 then Char.ofNat (c.toNat + 32) else c

/-- One entry of the _clean_text replacement dict applied to a single
character; Python str.replace with single-character source and target is
exactly a character map. -/
def replOne (src tgt : Char) (c : Char) : Char := if c = src then tgt else c

/-- Python text.replace(src, tgt) for single-character src and tgt. -/
def replaceAllChar (src tgt : Char) (s : List Char) : List Char :=
  s.map (replOne src tgt)

/-- _clean_text (pdf_utils.py lines 18-34): sequentially replace en dash,
em dash, bullet, middle dot, non-breaking space and non-breaking hyphen by
ASCII equivalents, in dict insertion order (innermost application first). -/
def cleanText (s : List Char) : List Char :=
  replaceAllChar '\u2011' '-'
    (replaceAllChar '\u00a0' ' '
      (replaceAllChar '\u00b7' '-'
        (replaceAllChar '\u2022' '-'
          (replaceAllChar '\u2014' '-'
            (replaceAllChar '\u2013' '-' s)))))

/-- The composite per-character action of cleanText (proof helper). -/
def chainClean (c : Char) : Char :=
  replOne '\u2011' '-'
    (replOne '\u00a0' ' '
      (replOne '\u00b7' '-'
        (replOne '\u2022' '-'
          (replOne '\u2014' '-'
            (replOne '\u2013' '-' c)))))

/-- Lazy search for the closing "**" of re.sub's pattern \*\*(.+?)\*\* :
given the text right after an opening "**", return the shortest non-empty
run of non-newline characters followed by "**", together with the rest of
the text after that closing marker.  Mirrors the regex engine: after each
candidate content character it first tries to match the closing literal,
and a newline can never be part of the content because "." does not match
it. -/
def findBoldClose : List Char → Option (List Char × List Char)
  | [] => none
  | c :: rest =>
    if c = '\n' then none
    else
      match rest with
      | '*' :: '*' :: rest2 => some ([c], rest2)
      | _ =>
        match findBoldClose rest with
        | some (content, r) => some (c :: content, r)
        | none => none

/-- Fueled scan of re.sub(r"\*\*(.+?)\*\*", r"<b>\1</b>", text): at each
position, if an opening "**" is followed by a lazily-matched closing "**"
the whole match is replaced and scanning resumes after it; otherwise the
engine advances one character.  Every step consumes at least one input
character, so fuel = input length suffices. -/
def convertBoldFuel : Nat → List Char → List Char
  | 0, s => s
  | n + 1, s =>
    match s with
    | '*' :: '*' :: rest =>
      match findBoldClose rest with
      | some (content, r) =>
        ("<b>").data ++ (content ++ (("</b>").data ++ convertBoldFuel n r))
      | none => '*' :: convertBoldFuel n ('*' :: rest)
    | c :: rest => c :: convertBoldFuel n rest
    | [] => []

/-- _convert_markdown_bold_to_html (pdf_utils.py lines 37-43). -/
def convertMarkdownBoldToHtml (s : List Char) : List Char :=
  convertBoldFuel s.length s

/-- _is_markdown_table (pdf_utils.py lines 46-65): a block is treated as a
table when it has at least two non-blank (stripped) lines, at least two of
them start with a pipe, and at least one pipe-line has stripped inner
content that is non-empty and not made only of dashes and colons. -/
def isMarkdownTable (block : List Char) : Bool :=
  let lines := ((pySplitlines block).map stripWs).filter (fun l => !l.isEmpty)
  if lines.length < 2 then false
  else
    let pipeLines := lines.filter (fun l => (("|").data).isPrefixOf l)
    if pipeLines.length < 2 then false
    else
      pipeLines.any (fun ln =>
        let inner := stripWs (stripPipes ln)
        !inner.isEmpty && !(inner.all (fun c => c == '-' || c == ':')))

/-- The loop body of _parse_markdown_table (pdf_utils.py lines 72-83):
strip the line; skip it unless it starts with a pipe; split the inner text
on pipes and trim each cell; skip the line when the concatenation of its
cells is non-empty and contains only dashes and colons (the alignment
separator row); otherwise append the cells as a grid row. -/
def parseTableLoop : List (List Char) → List (List (List Char))
  | [] => []
  | line :: rest =>
    let l := stripWs line
    if (("|").data).isPrefixOf l then
      let cells := (splitOnPipe (stripPipes l)).map stripWs
      let inner := cells.flatten
      if inner ≠ [] ∧ inner.all (fun c => c == '-' || c == ':') then parseTableLoop rest
      else cells :: parseTableLoop rest
    else parseTableLoop rest

/-- _parse_markdown_table (pdf_utils.py lines 68-83). -/
def parseMarkdownTable (block : List Char) : List (List (List Char)) :=
  parseTableLoop (pySplitlines block)

/-- The Table Parser separator rule as claim C2 words it: a pipe-line is
discarded whenever every character of the concatenation of its trimmed
cells is a dash or a colon, an empty concatenation (all cells empty)
included.  Written from the claim, to be compared with the source. -/
def parseTableClaim (block : List Char) : List (List (List Char)) :=
  (pySplitlines block).filterMap (fun line =>
    let l := stripWs line
    if (("|").data).isPrefixOf l then
      let cells := (splitOnPipe (stripPipes l)).map stripWs
      if (cells.flatten).all (fun c => c == '-' || c == ':') then none
      else some cells
    else none)

/-- The per-line rule of the amended claim C2: a pipe-line is discarded as
a separator exactly when the concatenation of its trimmed cells is
non-empty and contains only dashes and colons; an all-empty-cells line is
kept as a grid row; non-pipe lines are ignored. -/
def tableRowFilter (line : List Char) : Option (List (List Char)) :=
  let l := stripWs line
  if (("|").data).isPrefixOf l then
    let cells := (splitOnPipe (stripPipes l)).map stripWs
    if (cells.flatten) ≠ [] ∧ (cells.flatten).all (fun c => c == '-' || c == ':') then none
    else some cells
  else none

/-- The Table Parser as the amended claim C2 words it. -/
def parseTableAmended (block : List Char) : List (List (List Char)) :=
  (pySplitlines block).filterMap tableRowFilter

/-- A named paragraph style record: the fields of reportlab ParagraphStyle
that the source sets and the claims inspect (font name, font size, leading
and vertical spacing in points; colors, indents and alignment are omitted
as no claim mentions them). -/
structure PStyle where
  fontName : String
  fontSize : ℚ
  leading : ℚ
  spaceBefore : ℚ
  spaceAfter : ℚ
deriving DecidableEq

/-- body_font_size = 12.0 (pdf_utils.py line 134): the base of all spacing. -/
def bodyFontSize : ℚ := 12

/-- The Body style (pdf_utils.py lines 139-147). -/
def bodyStyle (ls sb sa : ℚ) : PStyle :=
  ⟨"Helvetica", bodyFontSize, bodyFontSize * ls, bodyFontSize * sb, bodyFontSize * sa⟩

/-- Heading1Custom (pdf_utils.py lines 149-157). -/
def heading1Custom (ls sb sa : ℚ) : PStyle :=
  ⟨"Helvetica-Bold", 20, 16 * ls, bodyFontSize * (sb + 0.5), bodyFontSize * (sa + 0.5)⟩

/-- Heading2Custom (pdf_utils.py lines 159-167). -/
def heading2Custom (ls sb sa : ℚ) : PStyle :=
  ⟨"Helvetica-Bold", 18, 13 * ls, bodyFontSize * (sb + 0.25), bodyFontSize * (sa + 0.5)⟩

/-- Heading3Custom (pdf_utils.py lines 169-177). -/
def heading3Custom (ls sb sa : ℚ) : PStyle :=
  ⟨"Helvetica-Bold", 16, 11 * ls, bodyFontSize * sb, bodyFontSize * sa⟩

/-- Heading4Custom (pdf_utils.py lines 179-187). -/
def heading4Custom (ls sb sa : ℚ) : PStyle :=
  ⟨"Helvetica-Bold", 14, 11 * ls, bodyFontSize * sb, bodyFontSize * sa⟩

/-- Summary (callout) style (pdf_utils.py lines 189-199); it inherits font
size and leading from its parent Body style. -/
def summaryStyle (ls sb sa : ℚ) : PStyle :=
  ⟨"Helvetica-Bold", bodyFontSize, bodyFontSize * ls,
    bodyFontSize * (sb + 0.25), bodyFontSize * (sa + 0.75)⟩

/-- TableHeader style (pdf_utils.py lines 222-229): parent Body, bold,
vertical spacing forced to zero. -/
def tableHeaderStyle (ls : ℚ) : PStyle :=
  ⟨"Helvetica-Bold", bodyFontSize, bodyFontSize * ls, 0, 0⟩

/-- TableCell style (pdf_utils.py lines 230-236): parent Body, vertical
spacing forced to zero. -/
def tableCellStyle (ls : ℚ) : PStyle :=
  ⟨"Helvetica", bodyFontSize, bodyFontSize * ls, 0, 0⟩

/-- A rendered element appended to the story: a reportlab Paragraph (kept
as its markup text plus the name of the style it is rendered with), a
Table (kept as its cell grid), or a Spacer. -/
inductive Flowable where
  | para (text : List Char) (styleName : String)
  | table (data : List (List (List Char)))
  | spacer (width height : ℚ)
deriving DecidableEq

/-- "<br/>".join(lines) used by the callout and body branches. -/
def joinBr (ls : List (List Char)) : List Char :=
  List.intercalate (("<br/>").data) ls

/-- The callout test (pdf_utils.py lines 291-298): the lower-cased block
starts with "summary", "ringkasan" or "recommendation". -/
def isCallout (block : List Char) : Bool :=
  let lower := block.map asciiLower
  (("summary").data).isPrefixOf lower || (("ringkasan").data).isPrefixOf lower ||
    (("recommendation").data).isPrefixOf lower

/-- One line of the normal-paragraph branch (pdf_utils.py lines 305-313):
strip the line; if the stripped line starts with "- " or "* ", emit a
bullet glyph followed by the rest of the stripped line, itself stripped;
otherwise emit the original line with trailing whitespace removed. -/
def bodyLine (line : List Char) : List Char :=
  let stripped := stripWs line
  if (("- ").data).isPrefixOf stripped then ("• ").data ++ stripWs (stripped.drop 2)
  else if (("* ").data).isPrefixOf stripped then ("• ").data ++ stripWs (stripped.drop 2)
  else rstripWs line

/-- The body-branch line rule as the amended claim C8 words it: a line
whose form after stripping whitespace from BOTH ends starts with "- " or
"* " is rewritten as the bullet glyph followed by the marker-stripped
remainder (surrounding whitespace removed); every other line — a line
such as "  - " included, whose stripped form "-" carries no marker —
passes through with only trailing whitespace stripped. -/
def bodyLineAmended (line : List Char) : List Char :=
  if (("- ").data).isPrefixOf (stripWs line) || (("* ").data).isPrefixOf (stripWs line) then
    ("• ").data ++ stripWs ((stripWs line).drop 2)
  else rstripWs line

/-- The per-block dispatch of build_pdf_bytes (pdf_utils.py lines 215-316),
applied to an already stripped non-empty block: table (with a trailing
spacer of height body_font_size * paragraph_space_after, and nothing at all
when the parse yields no rows), then the four heading prefixes longest
first (the heading text is the stripped remainder of the whole block after
the prefix), then the highlighted callout, then the default paragraph with
bullet rewriting. -/
def renderBlock (sa : ℚ) (block : List Char) : List Flowable :=
  if isMarkdownTable block then
    let data := parseMarkdownTable block
    if data = [] then []
    else [Flowable.table data, Flowable.spacer 1 (bodyFontSize * sa)]
  else if (("#### ").data).isPrefixOf block then
    [Flowable.para (stripWs (block.drop 4)) ("Heading4Custom")]
  else if (("### ").data).isPrefixOf block then
    [Flowable.para (stripWs (block.drop 4)) ("Heading3Custom")]
  else if (("## ").data).isPrefixOf block then
    [Flowable.para (stripWs (block.drop 3)) ("Heading2Custom")]
  else if (("# ").data).isPrefixOf block then
    [Flowable.para (stripWs (block.drop 2)) ("Heading1Custom")]
  else if isCallout block then
    [Flowable.para (joinBr ((pySplitlines block).map rstripWs)) ("Summary")]
  else
    [Flowable.para (joinBr ((pySplitlines block).map bodyLine)) ("Body")]

/-- The story assembled by build_pdf_bytes (pdf_utils.py lines 117-316):
bold markup translation then character normalization over the raw text, an
optional Heading-1 title paragraph (only when the title is truthy, i.e. a
non-empty string), then each double-newline-separated block, stripped,
skipped when blank and otherwise rendered in order. -/
def buildPdfStory (markdownText : List Char) (title : Option (List Char)) (sa : ℚ) :
    List Flowable :=
  let text := cleanText (convertMarkdownBoldToHtml markdownText)
  let titleStory : List Flowable :=
    match title with
    | some t => if t = [] then [] else [Flowable.para (cleanText t) ("Heading1Custom")]
    | none => []
  titleStory ++ (splitBlank text).flatMap (fun rawBlock =>
    let block := stripWs rawBlock
    if block = [] then [] else renderBlock sa block)

/-- The PDF magic header "%PDF" as bytes. -/
def pdfMagic : List Nat := [37, 80, 68, 70]

/-- Modelled from the spec: the pagination and serialization step of
build_pdf_bytes (reportlab SimpleDocTemplate.build followed by
buffer.getvalue(), pdf_utils.py lines 122-320) is third-party layout-engine
code that is not part of src/.  Per spec sections 4.7, 7 and 8 it is a
total deterministic function of the story that produces an in-memory byte
sequence beginning with the target format's magic header "%PDF"; the
payload after the header is abstracted to the story length. -/
def pdfFileBytes (story : List Flowable) : List Nat :=
  pdfMagic ++ [story.length]

/-- build_pdf_bytes (pdf_utils.py lines 86-320): assemble the story from
the markdown text and optional title, then paginate and serialize it. -/
def buildPdfBytes (markdownText : List Char) (title : Option (List Char))
    (lineSpacing sb sa : ℚ) : List Nat :=
  pdfFileBytes (buildPdfStory markdownText title sa)

/-! ## Helper lemmas -/

/-- cleanText on the empty string. -/
theorem cleanText_nil : cleanText [] = [] := rfl

/-- cleanText acts character by character: its head action is chainClean. -/
theorem cleanText_cons (c : Char) (s : List Char) :
    cleanText (c :: s) = chainClean c :: cleanText s := rfl

/-- The per-character action of cleanText is idempotent: its six source
characters map to '-' or ' ', which are fixed points, and every other
character is untouched. -/
theorem chainClean_idem (c : Char) : chainClean (chainClean c) = chainClean c := by
  by_cases h1 : c = '\u2013'
  · subst h1; rfl
  by_cases h2 : c = '\u2014'
  · subst h2; rfl
  by_cases h3 : c = '\u2022'
  · subst h3; rfl
  by_cases h4 : c = '\u00b7'
  · subst h4; rfl
  by_cases h5 : c = '\u00a0'
  · subst h5; rfl
  by_cases h6 : c = '\u2011'
  · subst h6; rfl
  have hc : chainClean c = c := by
    simp only [chainClean, replOne]
    rw [if_neg h1, if_neg h2, if_neg h3, if_neg h4, if_neg h5, if_neg h6]
  rw [hc, hc]


/-- One step of the parse loop, phrased through the per-line filter. -/
theorem parseTableLoop_step (line : List Char) (rest : List (List Char)) :
    parseTableLoop (line :: rest) =
      (match tableRowFilter line with
        | some r => r :: parseTableLoop rest
        | none => parseTableLoop rest) := by
  simp only [parseTableLoop, tableRowFilter]
  split_ifs <;> rfl

/-- The parse loop is the filterMap of the per-line filter. -/
theorem parseTableLoop_filterMap (ls : List (List Char)) :
    parseTableLoop ls = ls.filterMap tableRowFilter := by
  induction ls with
  | nil => rfl
  | cons line rest ih =>
    rw [parseTableLoop_step, List.filterMap_cons]
    cases htr : tableRowFilter line <;> simp [ih]

/-- The body-branch line rule of the source equals the amended wording. -/
theorem bodyLine_eq_amended (line : List Char) : bodyLine line = bodyLineAmended line := by
  simp only [bodyLine, bodyLineAmended]
  by_cases h1 : (("- ").data).isPrefixOf (stripWs line) = true
  · simp [h1]
  · by_cases h2 : (("* ").data).isPrefixOf (stripWs line) = true
    · simp [h1, h2]
    · simp [h1, h2]

/-! ## Claim theorems -/

/-- C1: for every input markdown text (the empty string included) and
every optional title, build_pdf_bytes terminates without error and returns
a non-empty byte sequence beginning with the PDF magic header "%PDF".  The
story assembly embedded from the source is a total function; the
serialization step is modelled from the spec (see pdfFileBytes). -/
theorem build_pdf_bytes_total_with_header :
    ∀ (md : List Char) (title : Option (List Char)) (ls sb sa : ℚ),
      buildPdfBytes md title ls sb sa ≠ [] ∧
      pdfMagic <+: buildPdfBytes md title ls sb sa := by
  intro md title ls sb sa
  constructor
  · simp [buildPdfBytes, pdfFileBytes, pdfMagic]
  · exact ⟨[(buildPdfStory md title sa).length], rfl⟩

/-- C2 counterexample: the pipe-line "||" has all-empty cells (empty
concatenation) and the claim says it is discarded as a separator, but the
source keeps it as the grid row [""] — the source condition demands a
non-empty concatenation.  parseTableClaim is the parser worded exactly as
the claim. -/
theorem empty_cells_row_kept_cex :
    parseMarkdownTable (("||").data) = [[[]]] ∧ parseTableClaim (("||").data) = [] := by
  refine ⟨by decide, by decide⟩

/-- C2 amended: a pipe-line is discarded as a separator exactly when the
concatenation of its trimmed cells is non-empty and contains only dashes
and colons; a line whose concatenation is empty (all cells empty) is kept
as a grid row; every other pipe-line becomes a grid row in original order
and non-pipe lines are ignored. -/
theorem parse_table_amended_rows :
    ∀ block : List Char, parseMarkdownTable block = parseTableAmended block := by
  intro block
  unfold parseMarkdownTable parseTableAmended
  exact parseTableLoop_filterMap (pySplitlines block)

/-- C3 counterexample: for the heading block "# A\nB" the source emits the
heading text "A\nB" — the whole block after the prefix, second line
included — not the claimed first-line remainder "A". -/
theorem heading_includes_later_lines_cex :
    renderBlock 1 (("# A\nB").data) = [Flowable.para (("A\nB").data) ("Heading1Custom")] ∧
    ("A\nB").data ≠ ("A").data := by
  refine ⟨by decide, by decide⟩

/-- C3 amended: for a non-table block whose first line starts with one of
the four heading prefixes (checked longest first), the emitted heading
text is the remainder of the whole block after the prefix with surrounding
whitespace stripped — subsequent lines of the block remain part of the
heading text. -/
theorem heading_text_amended :
    ∀ (block : List Char) (sa : ℚ), isMarkdownTable block = false →
      (((("#### ").data).isPrefixOf block = true →
        renderBlock sa block = [Flowable.para (stripWs (block.drop 4)) ("Heading4Custom")]) ∧
       ((("#### ").data).isPrefixOf block = false → (("### ").data).isPrefixOf block = true →
        renderBlock sa block = [Flowable.para (stripWs (block.drop 4)) ("Heading3Custom")]) ∧
       ((("#### ").data).isPrefixOf block = false → (("### ").data).isPrefixOf block = false →
        (("## ").data).isPrefixOf block = true →
        renderBlock sa block = [Flowable.para (stripWs (block.drop 3)) ("Heading2Custom")]) ∧
       ((("#### ").data).isPrefixOf block = false → (("### ").data).isPrefixOf block = false →
        (("## ").data).isPrefixOf block = false → (("# ").data).isPrefixOf block = true →
        renderBlock sa block = [Flowable.para (stripWs (block.drop 2)) ("Heading1Custom")])) := by
  intro block sa htab
  refine ⟨fun h4 => ?_, fun h4 h3 => ?_, fun h4 h3 h2 => ?_, fun h4 h3 h2 h1 => ?_⟩
  · simp [renderBlock, htab, h4]
  · simp [renderBlock, htab, h4, h3]
  · simp [renderBlock, htab, h4, h3, h2]
  · simp [renderBlock, htab, h4, h3, h2, h1]

/-- C3 witness: the amended heading rule applied to four concrete blocks. -/
theorem heading_text_amended_witness :
    renderBlock 1 (("#### T").data) =
      [Flowable.para (stripWs ((("#### T").data).drop 4)) ("Heading4Custom")] ∧
    renderBlock 1 (("### T").data) =
      [Flowable.para (stripWs ((("### T").data).drop 4)) ("Heading3Custom")] ∧
    renderBlock 1 (("## T").data) =
      [Flowable.para (stripWs ((("## T").data).drop 3)) ("Heading2Custom")] ∧
    renderBlock 1 (("# T").data) =
      [Flowable.para (stripWs ((("# T").data).drop 2)) ("Heading1Custom")] :=
  ⟨(heading_text_amended (("#### T").data) 1 (by decide)).1 (by decide),
   (heading_text_amended (("### T").data) 1 (by decide)).2.1 (by decide) (by decide),
   (heading_text_amended (("## T").data) 1 (by decide)).2.2.1 (by decide) (by decide) (by decide),
   (heading_text_amended (("# T").data) 1 (by decide)).2.2.2 (by decide) (by decide) (by decide)
     (by decide)⟩

/-- C4 counterexample: the single-line pure-separator block "|---|---|" is
not classified as a table (the classifier needs at least two non-blank
lines), and the assembler emits a Body paragraph element for it — not the
claimed silent skip. -/
theorem separator_only_block_cex :
    isMarkdownTable (("|---|---|").data) = false ∧
    renderBlock 1 (("|---|---|").data) = [Flowable.para (("|---|---|").data) ("Body")] := by
  refine ⟨by decide, by decide⟩

/-- C4 amended: a block consisting only of "|---|---|" is not classified
as a table; its parse (were it invoked) yields zero rows; the assembler
renders it as one plain Body paragraph (and hence emits no table element
and no trailing spacer for it). -/
theorem separator_only_block_amended :
    isMarkdownTable (("|---|---|").data) = false ∧
    parseMarkdownTable (("|---|---|").data) = [] ∧
    renderBlock 1 (("|---|---|").data) = [Flowable.para (("|---|---|").data) ("Body")] := by
  refine ⟨by decide, by decide, by decide⟩

/-- C5 counterexample: with space_before 0 and space_after 0.75 the
Heading3 style has exactly the Body style's space-before and space-after:
its per-style offsets are 0, equal to — not strictly larger than — the
body offsets, refuting the claimed strict inequality for every heading
level. -/
theorem heading3_offset_not_larger_cex :
    (heading3Custom 1.5 0 0.75).spaceBefore = (bodyStyle 1.5 0 0.75).spaceBefore ∧
    (heading3Custom 1.5 0 0.75).spaceAfter = (bodyStyle 1.5 0 0.75).spaceAfter := by
  constructor <;> norm_num [heading3Custom, bodyStyle, bodyFontSize]

/-- C5 amended: every style's space-before/after equals base_font_size
times (the caller's line-unit value plus a fixed per-style offset); the
offsets of Heading1 (0.5/0.5), Heading2 (0.25/0.5) and the callout
(0.25/0.75) are strictly larger than the body offsets (0/0), while
Heading3 and Heading4 share the body offsets exactly. -/
theorem style_spacing_amended :
    ∀ ls sb sa : ℚ,
      (bodyStyle ls sb sa).spaceBefore = bodyFontSize * (sb + 0) ∧
      (bodyStyle ls sb sa).spaceAfter = bodyFontSize * (sa + 0) ∧
      (heading1Custom ls sb sa).spaceBefore = bodyFontSize * (sb + 0.5) ∧
      (heading1Custom ls sb sa).spaceAfter = bodyFontSize * (sa + 0.5) ∧
      (heading2Custom ls sb sa).spaceBefore = bodyFontSize * (sb + 0.25) ∧
      (heading2Custom ls sb sa).spaceAfter = bodyFontSize * (sa + 0.5) ∧
      (heading3Custom ls sb sa).spaceBefore = bodyFontSize * (sb + 0) ∧
      (heading3Custom ls sb sa).spaceAfter = bodyFontSize * (sa + 0) ∧
      (heading4Custom ls sb sa).spaceBefore = bodyFontSize * (sb + 0) ∧
      (heading4Custom ls sb sa).spaceAfter = bodyFontSize * (sa + 0) ∧
      (summaryStyle ls sb sa).spaceBefore = bodyFontSize * (sb + 0.25) ∧
      (summaryStyle ls sb sa).spaceAfter = bodyFontSize * (sa + 0.75) ∧
      (heading1Custom ls sb sa).spaceBefore > (bodyStyle ls sb sa).spaceBefore ∧
      (heading1Custom ls sb sa).spaceAfter > (bodyStyle ls sb sa).spaceAfter ∧
      (heading2Custom ls sb sa).spaceBefore > (bodyStyle ls sb sa).spaceBefore ∧
      (heading2Custom ls sb sa).spaceAfter > (bodyStyle ls sb sa).spaceAfter ∧
      (summaryStyle ls sb sa).spaceBefore > (bodyStyle ls sb sa).spaceBefore ∧
      (summaryStyle ls sb sa).spaceAfter > (bodyStyle ls sb sa).spaceAfter ∧
      (heading3Custom ls sb sa).spaceBefore = (bodyStyle ls sb sa).spaceBefore ∧
      (heading3Custom ls sb sa).spaceAfter = (bodyStyle ls sb sa).spaceAfter ∧
      (heading4Custom ls sb sa).spaceBefore = (bodyStyle ls sb sa).spaceBefore ∧
      (heading4Custom ls sb sa).spaceAfter = (bodyStyle ls sb sa).spaceAfter := by
  intro ls sb sa
  simp only [bodyStyle, heading1Custom, heading2Custom, heading3Custom, heading4Custom,
    summaryStyle, bodyFontSize]
  refine ⟨?_, ?_, ?_, ?_, ?_, ?_, ?_, ?_, ?_, ?_, ?_, ?_, ?_, ?_, ?_, ?_, ?_, ?_, ?_, ?_,
    ?_, ?_⟩ <;> first
  | trivial
  | linarith

/-- C6: translate_bold wraps each non-overlapping, non-greedily matched
double-asterisk span in bold markup — "a **b** c **d**" yields exactly the
two bold spans b and d, "**a** and **b**" yields two separate spans — and
an unmatched odd marker is left verbatim without error. -/
theorem translate_bold_spans :
    convertMarkdownBoldToHtml (("a **b** c **d**").data) = ("a <b>b</b> c <b>d</b>").data ∧
    convertMarkdownBoldToHtml (("**a** and **b**").data) = ("<b>a</b> and <b>b</b>").data ∧
    convertMarkdownBoldToHtml (("a ** b c").data) = ("a ** b c").data := by
  refine ⟨by decide, by decide, by decide⟩

/-- C7: the Text Normalizer is idempotent — normalising twice equals
normalising once, because its targets ('-' and ' ') are fixed points of
the replacement map and disjoint from its six source characters. -/
theorem clean_text_idempotent :
    ∀ s : List Char, cleanText (cleanText s) = cleanText s := by
  intro s
  induction s with
  | nil => rfl
  | cons a l ih => rw [cleanText_cons, cleanText_cons, chainClean_idem, ih]

/-- C8 counterexample: in the body block "x\n  - a" the second line starts
with whitespace, not with "- ", so under the claim it should pass through
as "  - a" (trailing strip only); the source strips the line first and
rewrites it to the bullet form "• a". -/
theorem indented_bullet_cex :
    renderBlock 1 (("x\n  - a").data) = [Flowable.para (("x<br/>• a").data) ("Body")] ∧
    ("x<br/>• a").data ≠ ("x<br/>  - a").data := by
  refine ⟨by decide, by decide⟩

/-- C8 amended: in a BodyText block, every line that, after stripping
whitespace from both ends, starts with "- " or "* " is rewritten with the
bullet glyph prefix (the surrounding whitespace, the marker and its
following space stripped, remainder stripped); every other line —
including a line such as "  - " whose fully stripped form "-" carries no
marker — passes through with only trailing whitespace stripped; the
resulting lines are joined with line-break markup into exactly one
paragraph element. -/
theorem body_block_amended :
    ∀ (block : List Char) (sa : ℚ),
      isMarkdownTable block = false →
      (("#### ").data).isPrefixOf block = false → (("### ").data).isPrefixOf block = false →
      (("## ").data).isPrefixOf block = false → (("# ").data).isPrefixOf block = false →
      isCallout block = false →
      renderBlock sa block =
        [Flowable.para (joinBr ((pySplitlines block).map bodyLineAmended)) ("Body")] := by
  intro block sa h0 h4 h3 h2 h1 hc
  have hfun : bodyLine = bodyLineAmended := funext bodyLine_eq_amended
  simp [renderBlock, h0, h4, h3, h2, h1, hc, hfun]

/-- C8 witness: the amended body rule applied to a concrete block with a
plain line, a dash bullet and a star bullet. -/
theorem body_block_amended_witness :
    renderBlock 1 (("p\n- q\n* r").data) =
      [Flowable.para (joinBr ((pySplitlines (("p\n- q\n* r").data)).map bodyLineAmended))
        ("Body")] :=
  body_block_amended (("p\n- q\n* r").data) 1 (by decide) (by decide) (by decide) (by decide)
    (by decide) (by decide)

/-- C9 counterexample: the block "| - | - |\n| - | - |" is classified as a
table (each line's stripped inner text "- | -" contains characters other
than dashes and colons), yet every line parses as a separator row (each
cell trims to "-", concatenation "--"), so the parse yields zero rows and
the skip branch is reached: nothing is emitted. -/
theorem table_with_zero_rows_cex :
    isMarkdownTable (("| - | - |\n| - | - |").data) = true ∧
    parseMarkdownTable (("| - | - |\n| - | - |").data) = [] ∧
    renderBlock 1 (("| - | - |\n| - | - |").data) = [] := by
  refine ⟨by decide, by decide, by decide⟩

/-- C9 amended: a table-classified block may parse to zero rows, so the
skip branch is reachable; when the parse is empty the assembler emits no
element and no spacer, and when it is non-empty it emits exactly one table
element followed by one spacer. -/
theorem table_skip_branch_amended :
    ∀ (block : List Char) (sa : ℚ), isMarkdownTable block = true →
      ((parseMarkdownTable block = [] → renderBlock sa block = []) ∧
       (parseMarkdownTable block ≠ [] →
         renderBlock sa block =
           [Flowable.table (parseMarkdownTable block),
            Flowable.spacer 1 (bodyFontSize * sa)])) := by
  intro block sa ht
  constructor
  · intro hp; simp [renderBlock, ht, hp]
  · intro hp; simp [renderBlock, ht, hp]

/-- C9 witness: both branches of the amended statement at concrete tables. -/
theorem table_skip_branch_amended_witness :
    renderBlock 1 (("| - | - |\n| - | - |").data) = [] ∧
    renderBlock 1 (("| a | b |\n| c | d |").data) =
      [Flowable.table (parseMarkdownTable (("| a | b |\n| c | d |").data)),
       Flowable.spacer 1 (bodyFontSize * 1)] :=
  ⟨(table_skip_branch_amended (("| - | - |\n| - | - |").data) 1 (by decide)).1 (by decide),
   (table_skip_branch_amended (("| a | b |\n| c | d |").data) 1 (by decide)).2 (by decide)⟩

/-- C10: an empty-string title is treated exactly like an absent title —
no Heading-1 title element is prepended and story and output bytes
coincide with the untitled render — while a non-empty title prepends
exactly one Heading-1 paragraph carrying the normalized title. -/
theorem empty_title_like_none :
    ∀ (md : List Char) (ls sb sa : ℚ),
      buildPdfStory md (some []) sa = buildPdfStory md none sa ∧
      buildPdfBytes md (some []) ls sb sa = buildPdfBytes md none ls sb sa ∧
      (∀ t : List Char, t ≠ [] →
        buildPdfStory md (some t) sa =
          Flowable.para (cleanText t) ("Heading1Custom") :: buildPdfStory md none sa) := by
  intro md ls sb sa
  refine ⟨?_, ?_, ?_⟩
  · simp [buildPdfStory]
  · simp [buildPdfBytes, pdfFileBytes, buildPdfStory]
  · intro t ht
    simp [buildPdfStory, ht]

/-- C10 witness: a concrete non-empty title is prepended as a Heading-1
paragraph. -/
theorem empty_title_like_none_witness :
    buildPdfStory (("hi").data) (some (("T").data)) 1 =
      Flowable.para (cleanText (("T").data)) ("Heading1Custom") ::
        buildPdfStory (("hi").data) none 1 :=
  (empty_title_like_none (("hi").data) 1 1 1).2.2 (("T").data) (by decide)
